import Mathlib

/-!
# Expression evaluators of `demos/ast/eval`, middleware router, service discovery

A shallow embedding of the two tree-walking evaluators of the repository,
`demos/ast/eval/simple/eval.go` (fixed table of `func(float64) float64`) and
`demos/ast/eval/reflect/eval.go` (registry of `reflect.Value` callables), of the
router of `frame/middleware/middleware.go` and of the locking of
`frame/etcd/discovery.go`, together with the properties of their behaviour.

Modelling conventions.

* A Go function returning `(T, error)` becomes a function into `Result T`, which has a
  third outcome, `panic`, for a run that ends in a Go panic (the evaluators never
  call `recover`, so a panic unwinds through every caller).
* `float64` and its operations are a parameter, `Float64 F`: the evaluators only ever
  combine numbers with `+ - * /`, unary minus, `strconv.ParseFloat` and the `math`
  functions they register, all of which are total. Nothing is assumed about them.
* `go/ast` nodes are the inductive type `Expr`; node kinds the evaluators do not
  inspect are collapsed into `Expr.Other`.
-/

namespace GoLibs

/-! ## Go library vocabulary -/

/-- Tokens of `go/token` that can occur as `BasicLit.Kind`, `UnaryExpr.Op` or
`BinaryExpr.Op`. The evaluators distinguish `INT`, `FLOAT`, `ADD`, `SUB`, `MUL` and
`QUO`; every token not listed by name is `other`. -/
inductive Token where
  | INT
  | FLOAT
  | IMAG
  | CHAR
  | STRING
  | ADD
  | SUB
  | MUL
  | QUO
  | REM
  | other (name : String)
  deriving DecidableEq, Repr

/-- Expression nodes of `go/ast`. `SelectorExpr.Sel` is an `*ast.Ident`; only its
`Name` is kept. `Other goType` stands for any node kind that none of the evaluators
has a case for; `goType` is what `%T` prints for it. -/
inductive Expr where
  | BinaryExpr (X : Expr) (Op : Token) (Y : Expr)
  | UnaryExpr (Op : Token) (X : Expr)
  | BasicLit (Kind : Token) (Value : String)
  | ParenExpr (X : Expr)
  | CallExpr (Fun : Expr) (Args : List Expr)
  | Ident (Name : String)
  | SelectorExpr (X : Expr) (Sel : String)
  | Other (goType : String)

/-- What `fmt` prints for `%T` of a node. -/
def Expr.goType : Expr → String
  | .BinaryExpr _ _ _ => "*ast.BinaryExpr"
  | .UnaryExpr _ _ => "*ast.UnaryExpr"
  | .BasicLit _ _ => "*ast.BasicLit"
  | .ParenExpr _ => "*ast.ParenExpr"
  | .CallExpr _ _ => "*ast.CallExpr"
  | .Ident _ => "*ast.Ident"
  | .SelectorExpr _ _ => "*ast.SelectorExpr"
  | .Other goType => goType

/-- The error of `strconv.ParseFloat` (`*strconv.NumError`): the rejected text and
whether it was a syntax or a range error. -/
inductive NumError where
  | syntaxErr (text : String)
  | rangeErr (text : String)
  deriving DecidableEq, Repr

/-- The `float64` operations used by the evaluators, over a carrier `F`. -/
structure Float64 (F : Type) where
  /-- Go `x + y`. -/
  add : F → F → F
  /-- Go `x - y`. -/
  sub : F → F → F
  /-- Go `x * y`. -/
  mul : F → F → F
  /-- Go `x / y`; total, a zero divisor gives an infinity or NaN. -/
  quo : F → F → F
  /-- Go `-x`. -/
  neg : F → F
  /-- `strconv.ParseFloat(s, 64)`. -/
  ParseFloat : String → Except NumError F
  /-- `math.Sin`. -/
  Sin : F → F
  /-- `math.Cos`. -/
  Cos : F → F
  /-- `math.Log`. -/
  Log : F → F

/-! ## Errors, panics, results -/

/-- The error values the two evaluators build with `fmt.Errorf`, one constructor per
format string, plus the error handed through from `strconv.ParseFloat`. -/
inductive EvalError where
  /-- An error returned by `strconv.ParseFloat`. -/
  | strconv (e : NumError)
  /-- Format `不支持的运算符: %s`. -/
  | unsupportedOperator (op : Token)
  /-- Format `不支持的文字类型: %s`. -/
  | unsupportedLiteral (kind : Token)
  /-- Format `不支持的函数调用类型: %T`. -/
  | unsupportedCallType (goType : String)
  /-- Format `不支持的函数: %s`. -/
  | unsupportedFunction (name : String)
  /-- Format `不支持的标识符: %s`. -/
  | unsupportedIdent (name : String)
  /-- Format `不支持的表达式类型: %T`. -/
  | unsupportedExprType (goType : String)
  /-- Text `参数必须是函数类型` (from `Register`). -/
  | notAFunction
  /-- Format `函数返回值数量错误: %d`. -/
  | resultCount (n : Nat)
  deriving DecidableEq, Repr

/-- Go panics that a run of an evaluator can end in. -/
inductive Panic where
  /-- Runtime error: index out of range `[index]` with length `length`. -/
  | indexOutOfRange (index length : Nat)
  /-- A panic raised by `reflect.Value.Call` itself. -/
  | reflectCall (msg : String)
  /-- An explicit `panic(msg)` in a registered function. -/
  | explicit (msg : String)
  deriving DecidableEq, Repr

/-- Outcome of a Go function with result `(T, error)`: a value with a nil error, a
non-nil error, or a panic. -/
inductive Result (α : Type) where
  | ok (v : α)
  | err (e : EvalError)
  | panic (p : Panic)
  deriving DecidableEq, Repr

/-! ## The simple evaluator (`demos/ast/eval/simple/eval.go`) -/

namespace Simple

/-- The struct `evaluator`: `funcs` is the Go map from names to
`func(float64) float64`. -/
structure evaluator (F : Type) where
  funcs : String → Option (F → F)

/-- Function `NewEvaluator`: the table holding `sin`, `cos` and `log`. -/
def NewEvaluator {F : Type} (m : Float64 F) : evaluator F where
  funcs := fun name =>
    if name = "sin" then some m.Sin
    else if name = "cos" then some m.Cos
    else if name = "log" then some m.Log
    else none

mutual

/-- Method `evaluator.eval`. -/
def eval {F : Type} (m : Float64 F) (e : evaluator F) : Expr → Result F
  | .BinaryExpr X Op Y =>
    match eval m e X with
    | .err err => .err err
    | .panic p => .panic p
    | .ok left =>
      match eval m e Y with
      | .err err => .err err
      | .panic p => .panic p
      | .ok right =>
        match Op with
        | .ADD => .ok (m.add left right)
        | .SUB => .ok (m.sub left right)
        | .MUL => .ok (m.mul left right)
        | .QUO => .ok (m.quo left right)
        | _ => .err (.unsupportedOperator Op)
  | .UnaryExpr Op X =>
    match eval m e X with
    | .err err => .err err
    | .panic p => .panic p
    | .ok operand =>
      match Op with
      | .ADD => .ok operand
      | .SUB => .ok (m.neg operand)
      | _ => .err (.unsupportedOperator Op)
  | .BasicLit Kind Value =>
    match Kind with
    | .INT =>
      match m.ParseFloat Value with
      | .error err => .err (.strconv err)
      | .ok val => .ok val
    | .FLOAT =>
      match m.ParseFloat Value with
      | .error err => .err (.strconv err)
      | .ok val => .ok val
    | _ => .err (.unsupportedLiteral Kind)
  | .ParenExpr X => eval m e X
  | .CallExpr Fun Args =>
    match Fun with
    | .Ident Name =>
      match e.funcs Name with
      | none => .err (.unsupportedFunction Name)
      | some fn =>
        match evalArgLoop m e Args with
        | .err err => .err err
        | .panic p => .panic p
        | .ok args =>
          match args with
          | [] => .panic (.indexOutOfRange 0 0)
          | a :: _ => .ok (fn a)
    | _ => .err (.unsupportedCallType Fun.goType)
  | .Ident Name => .err (.unsupportedIdent Name)
  | .SelectorExpr X Sel => .err (.unsupportedExprType (Expr.SelectorExpr X Sel).goType)
  | .Other goType => .err (.unsupportedExprType (Expr.Other goType).goType)

/-- The loop `for _, arg := range n.Args` of the `CallExpr` case: the values of the
arguments in order, or the first error. -/
def evalArgLoop {F : Type} (m : Float64 F) (e : evaluator F) : List Expr → Result (List F)
  | [] => .ok []
  | arg :: rest =>
    match eval m e arg with
    | .err err => .err err
    | .panic p => .panic p
    | .ok argVal =>
      match evalArgLoop m e rest with
      | .err err => .err err
      | .panic p => .panic p
      | .ok vals => .ok (argVal :: vals)

end

end Simple

/-! ## The reflect evaluator (`demos/ast/eval/reflect/eval.go`) -/

namespace Reflect

/-- Dynamic values (`interface{}`) that flow through the reflect evaluator: results of
`eval`, arguments and results of registered functions. Function values are kept apart
(`FuncValue`), so values here are first-order data; `nil` is the nil interface. -/
inductive Value (F : Type) where
  | float64 (x : F)
  | int (n : Int)
  | string (s : String)
  | bool (b : Bool)
  | nil

/-- Static Go types that a parameter of a registered function can have; `any` is
`interface{}`. -/
inductive GoType where
  | float64
  | int
  | string
  | bool
  | any
  deriving DecidableEq, Repr

/-- Type name as `reflect.Type.String` prints it. -/
def GoType.name : GoType → String
  | .float64 => "float64"
  | .int => "int"
  | .string => "string"
  | .bool => "bool"
  | .any => "interface {}"

/-- Dynamic type of a value, `reflect.ValueOf(v).Type()`; `none` for the nil
interface, whose `reflect.Value` is the zero Value. -/
def Value.goType {F : Type} : Value F → Option GoType
  | .float64 _ => some .float64
  | .int _ => some .int
  | .string _ => some .string
  | .bool _ => some .bool
  | .nil => none

/-- Whether a value is the nil interface, for which `reflect.ValueOf` gives the zero
Value (`IsValid` is false). -/
def Value.isNil {F : Type} : Value F → Bool
  | .nil => true
  | _ => false

/-- Whether the dynamic type of a value is `float64`. -/
def Value.isFloat64 {F : Type} : Value F → Bool
  | .float64 _ => true
  | _ => false

/-- Method `Type.AssignableTo` on the types above: identical types, or the target is
the empty interface. -/
def GoType.AssignableTo (xt targ : GoType) : Bool :=
  decide (xt = targ) || decide (targ = .any)

/-- The function behind a `reflect.Value` of kind `Func`, for a non-nil function: the
types of its parameters other than a final variadic one, the element type of the final
parameter `...T` when the function is variadic, and its body, which maps the argument
values (those for a variadic parameter being the elements of its slice, in order) to
the list of results or panics. -/
structure FuncValue (F : Type) where
  In : List GoType
  Variadic : Option GoType
  body : List (Value F) → Except Panic (List (Value F))

/-- The first argument, in order, whose dynamic type is not assignable to the type of
its parameter, with both type names. -/
def firstNotAssignable {F : Type} : List (Value F) → List GoType → Option (String × String)
  | x :: xs, targ :: targs =>
    match x.goType with
    | some xt =>
      if xt.AssignableTo targ then firstNotAssignable xs targs
      else some (xt.name, targ.name)
    | none => firstNotAssignable xs targs
  | _, _ => none

/-- The first value, in order, whose dynamic type is not assignable to the element type
of the variadic parameter, with the name of its type. -/
def firstNotElem {F : Type} (elem : GoType) : List (Value F) → Option String
  | [] => none
  | x :: xs =>
    match x.goType with
    | some xt => if xt.AssignableTo elem then firstNotElem elem xs else some xt.name
    | none => firstNotElem elem xs

/-- Method `reflect.Value.Call`: it panics on too few arguments, on too many when the
function is not variadic, on a zero Value argument and on an argument that is not
assignable to the type of its parameter (for the arguments of a variadic parameter, to
its element type), and otherwise runs the function. -/
def FuncValue.Call {F : Type} (fn : FuncValue F) (ins : List (Value F)) :
    Except Panic (List (Value F)) :=
  if ins.length < fn.In.length then
    .error (.reflectCall "reflect: Call with too few input arguments")
  else if fn.Variadic = none ∧ ins.length > fn.In.length then
    .error (.reflectCall "reflect: Call with too many input arguments")
  else if ins.any Value.isNil then
    .error (.reflectCall "reflect: Call using zero Value argument")
  else
    match firstNotAssignable ins fn.In with
    | some (xt, targ) => .error (.reflectCall ("reflect: Call using " ++ xt ++ " as type " ++ targ))
    | none =>
      match fn.Variadic with
      | none => fn.body ins
      | some elem =>
        match firstNotElem elem (ins.drop fn.In.length) with
        | some xt =>
          .error (.reflectCall ("reflect: cannot use " ++ xt ++ " as type " ++ elem.name ++
            " in Call"))
        | none => fn.body ins

/-- Kinds of `reflect.Kind` that `Register` can meet. -/
inductive Kind where
  | Invalid
  | Bool
  | Int
  | Float64
  | String
  | Func
  deriving DecidableEq, Repr

/-- Kind name as `reflect.Kind.String` prints it inside a `reflect.ValueError`. -/
def kindName : Kind → String
  | .Invalid => "zero"
  | .Bool => "bool"
  | .Int => "int"
  | .Float64 => "float64"
  | .String => "string"
  | .Func => "func"

/-- A `reflect.Value` as `reflect.ValueOf(x)` gives it: of a function or of a
first-order value (the zero Value for the nil interface). This is also what can be
passed as `fn interface{}` to `Register`. -/
inductive ReflectValue (F : Type) where
  | func (f : FuncValue F)
  | value (v : Value F)

/-- Method `reflect.Value.Kind`. -/
def ReflectValue.Kind {F : Type} : ReflectValue F → Kind
  | .func _ => .Func
  | .value (.float64 _) => .Float64
  | .value (.int _) => .Int
  | .value (.string _) => .String
  | .value (.bool _) => .Bool
  | .value .nil => .Invalid

/-- Method `reflect.Value.Call` on any `reflect.Value`: a panic unless the kind is
`Func`, then the call of the function. -/
def ReflectValue.Call {F : Type} (fn : ReflectValue F) (ins : List (Value F)) :
    Except Panic (List (Value F)) :=
  match fn with
  | .func f => f.Call ins
  | .value v =>
    .error (.reflectCall ("reflect: call of reflect.Value.Call on " ++
      kindName (ReflectValue.value v).Kind ++ " Value"))

/-- The struct `functionRegistry`: `funcs` is the Go map from names to
`reflect.Value`. -/
structure functionRegistry (F : Type) where
  funcs : String → Option (ReflectValue F)

/-- Function `NewFunctionRegistry`: the empty map. -/
def NewFunctionRegistry {F : Type} : functionRegistry F where
  funcs := fun _ => none

/-- Method `functionRegistry.Register`: the registry after the call and the returned
error (`none` for a nil error). -/
def Register {F : Type} (r : functionRegistry F) (name : String) (fn : ReflectValue F) :
    functionRegistry F × Option EvalError :=
  if fn.Kind ≠ .Func then (r, some .notAFunction)
  else ({ funcs := fun k => if k = name then some fn else r.funcs k }, none)

/-- The struct `evaluator` of the reflect evaluator. -/
structure evaluator (F : Type) where
  registry : functionRegistry F

/-- Function `NewEvaluator`. -/
def NewEvaluator {F : Type} (fr : functionRegistry F) : evaluator F where
  registry := fr

/-- Method `evaluator.callFunc` (its receiver is unused): call through reflection
and demand exactly one result. -/
def callFunc {F : Type} (fn : ReflectValue F) (args : List (Value F)) :
    Result (Value F) :=
  match fn.Call args with
  | .error p => .panic p
  | .ok result =>
    if result.length ≠ 1 then .err (.resultCount result.length)
    else
      match result with
      | r :: _ => .ok r
      | [] => .panic (.indexOutOfRange 0 0)

/-- The type switch on `n.Fun` of the `CallExpr` case: the name under which the callee
is looked up, or the error for an unsupported callee. -/
def funcName (Fun : Expr) : Except EvalError String :=
  match Fun with
  | .Ident Name => .ok Name
  | .SelectorExpr X Sel =>
    match X with
    | .Ident pkgName => .ok (pkgName ++ "." ++ Sel)
    | _ => .error (.unsupportedCallType X.goType)
  | _ => .error (.unsupportedCallType Fun.goType)

mutual

/-- Method `evaluator.eval` of the reflect evaluator. -/
def eval {F : Type} (m : Float64 F) (e : evaluator F) : Expr → Result (Value F)
  | .BasicLit Kind Value =>
    match Kind with
    | .INT =>
      match m.ParseFloat Value with
      | .error err => .err (.strconv err)
      | .ok val => .ok (.float64 val)
    | .FLOAT =>
      match m.ParseFloat Value with
      | .error err => .err (.strconv err)
      | .ok val => .ok (.float64 val)
    | _ => .err (.unsupportedLiteral Kind)
  | .ParenExpr X => eval m e X
  | .CallExpr Fun Args =>
    match funcName Fun with
    | .error err => .err err
    | .ok name =>
      match e.registry.funcs name with
      | none => .err (.unsupportedFunction name)
      | some fn =>
        match evalArgs m e Args with
        | .err err => .err err
        | .panic p => .panic p
        | .ok args => callFunc fn args
  | .Ident Name => .err (.unsupportedIdent Name)
  | .BinaryExpr X Op Y => .err (.unsupportedExprType (Expr.BinaryExpr X Op Y).goType)
  | .UnaryExpr Op X => .err (.unsupportedExprType (Expr.UnaryExpr Op X).goType)
  | .SelectorExpr X Sel => .err (.unsupportedExprType (Expr.SelectorExpr X Sel).goType)
  | .Other goType => .err (.unsupportedExprType (Expr.Other goType).goType)

/-- Method `evaluator.evalArgs`: the values of the arguments in order, or the first
error. -/
def evalArgs {F : Type} (m : Float64 F) (e : evaluator F) :
    List Expr → Result (List (Value F))
  | [] => .ok []
  | arg :: rest =>
    match eval m e arg with
    | .err err => .err err
    | .panic p => .panic p
    | .ok val =>
      match evalArgs m e rest with
      | .err err => .err err
      | .panic p => .panic p
      | .ok vals => .ok (val :: vals)

end

/-- The `reflect.Value` of a `func(float64) float64` such as `math.Sin`. The last case
of the body is never reached through `Call`, which has checked the number and the
types of the arguments. -/
def ofFloatFunc {F : Type} (f : F → F) : ReflectValue F :=
  .func {
    In := [.float64]
    Variadic := none
    body := fun ins =>
      match ins with
      | [.float64 x] => .ok [.float64 (f x)]
      | _ => .error (.reflectCall "reflect: Call with wrong arguments") }

/-- Go `int` addition: the sum wrapped to 64 bits, two's complement. -/
def addInt (a b : Int) : Int :=
  (a + b + 2 ^ 63) % 2 ^ 64 - 2 ^ 63

/-- The function literal registered as `add` in `main`. -/
def add {F : Type} (m : Float64 F) (a b : Value F) : Except Panic (Value F) :=
  match a with
  | .float64 aTyped =>
    match b with
    | .float64 bTyped => .ok (.float64 (m.add aTyped bTyped))
    | _ => .error (.explicit "类型不匹配")
  | .int aTyped =>
    match b with
    | .int bTyped => .ok (.int (addInt aTyped bTyped))
    | _ => .error (.explicit "类型不匹配")
  | _ => .error (.explicit "不支持的类型")

/-- The `reflect.Value` of a `func(a, b interface{}) interface{}`. The last case of
the body is never reached through `Call`, which has checked the number of
arguments. -/
def ofAnyFunc2 {F : Type} (f : Value F → Value F → Except Panic (Value F)) :
    ReflectValue F :=
  .func {
    In := [.any, .any]
    Variadic := none
    body := fun ins =>
      match ins with
      | [a, b] =>
        match f a b with
        | .ok r => .ok [r]
        | .error p => .error p
      | _ => .error (.reflectCall "reflect: Call with wrong arguments") }

/-- The registry that `main` builds: `sin`, `cos` and `add`, registered in this
order. -/
def mainRegistry {F : Type} (m : Float64 F) : functionRegistry F :=
  let r0 : functionRegistry F := NewFunctionRegistry
  let r1 := (Register r0 "sin" (ofFloatFunc m.Sin)).1
  let r2 := (Register r1 "cos" (ofFloatFunc m.Cos)).1
  (Register r2 "add" (ofAnyFunc2 (add m))).1

end Reflect

/-! ## The arithmetic fragment, after the data model of the specification -/

/-- Unary operators of the specification's `UnaryOp`. -/
inductive UnaryOperator where
  | Plus
  | Minus

/-- Binary operators of the specification's `BinaryOp`. -/
inductive BinaryOperator where
  | Add
  | Sub
  | Mul
  | Div

/-- Expression trees built only from number literals, parentheses, unary `+ -` and
binary `+ - * /`: the call-free, identifier-free part of the specification's
expression node. -/
inductive ExprNode (F : Type) where
  | NumberLiteral (value : F)
  | UnaryOp (op : UnaryOperator) (operand : ExprNode F)
  | BinaryOp (op : BinaryOperator) (left right : ExprNode F)
  | Parenthesized (inner : ExprNode F)

/-- The standard arithmetic value of a tree, in the words of the specification: a
literal gives its value, `+x` the value of `x`, `-x` its negation, a binary node the
operator applied to the values of left and right, parentheses the value inside. -/
def ExprNode.value {F : Type} (m : Float64 F) : ExprNode F → F
  | .NumberLiteral value => value
  | .UnaryOp .Plus operand => operand.value m
  | .UnaryOp .Minus operand => m.neg (operand.value m)
  | .BinaryOp .Add left right => m.add (left.value m) (right.value m)
  | .BinaryOp .Sub left right => m.sub (left.value m) (right.value m)
  | .BinaryOp .Mul left right => m.mul (left.value m) (right.value m)
  | .BinaryOp .Div left right => m.quo (left.value m) (right.value m)
  | .Parenthesized inner => inner.value m

/-- The token of a unary operator. -/
def UnaryOperator.token : UnaryOperator → Token
  | .Plus => .ADD
  | .Minus => .SUB

/-- The token of a binary operator. -/
def BinaryOperator.token : BinaryOperator → Token
  | .Add => .ADD
  | .Sub => .SUB
  | .Mul => .MUL
  | .Div => .QUO

/-- The `go/ast` tree `t` is a syntax tree of the node `n`: node by node the same
shape, a number literal of value `v` being a `BasicLit` of kind `INT` or `FLOAT`
whose text `strconv.ParseFloat` converts to `v`. -/
inductive Represents {F : Type} (m : Float64 F) : Expr → ExprNode F → Prop where
  | int (text : String) (v : F) (h : m.ParseFloat text = .ok v) :
      Represents m (.BasicLit .INT text) (.NumberLiteral v)
  | float (text : String) (v : F) (h : m.ParseFloat text = .ok v) :
      Represents m (.BasicLit .FLOAT text) (.NumberLiteral v)
  | unary (op : UnaryOperator) (X : Expr) (x : ExprNode F) (hx : Represents m X x) :
      Represents m (.UnaryExpr op.token X) (.UnaryOp op x)
  | binary (op : BinaryOperator) (X Y : Expr) (x y : ExprNode F)
      (hx : Represents m X x) (hy : Represents m Y y) :
      Represents m (.BinaryExpr X op.token Y) (.BinaryOp op x y)
  | paren (X : Expr) (x : ExprNode F) (hx : Represents m X x) :
      Represents m (.ParenExpr X) (.Parenthesized x)

/-- The callee that `go/parser` builds for the dotted name `first.r1.r2...`: an
identifier for a name without a dot, otherwise selectors nested to the left, so that
`a.b.c` is the selector of `c` in the selector of `b` in `a`. -/
def dottedCallee (first : String) (rest : List String) : Expr :=
  rest.foldl (fun X Sel => .SelectorExpr X Sel) (.Ident first)

/-- The full dotted string of the name `first.r1.r2...`. -/
def dottedName (first : String) (rest : List String) : String :=
  rest.foldl (fun name part => name ++ "." ++ part) first

/-! ## A number model to run the evaluators on sample expressions -/

namespace Sample

/-- Numbers of the sample model: exact rationals, applications of the three `math`
functions kept as symbols, and `untracked` for every value the model does not follow
(arithmetic on a symbol, a division by zero). -/
inductive Num where
  | rat (q : ℚ)
  | sin (x : Num)
  | cos (x : Num)
  | log (x : Num)
  | untracked

/-- Value of a non-empty string of decimal digits. -/
def digits : List Char → Option Nat
  | [] => none
  | cs => cs.foldl (fun acc c =>
      match acc with
      | none => none
      | some n => if c.isDigit then some (10 * n + (c.toNat - 48)) else none) (some 0)

/-- Value of a decimal mantissa `ddd`, `ddd.ddd`, `ddd.` or `.ddd`. -/
def mantissa (cs : List Char) : Option ℚ :=
  match cs.span (fun c => c != '.') with
  | (whole, []) =>
    match digits whole with
    | some n => some n
    | none => none
  | (whole, _ :: frac) =>
    match whole, frac with
    | [], [] => none
    | [], _ =>
      match digits frac with
      | some k => some ((k : ℚ) / 10 ^ frac.length)
      | none => none
    | _, [] =>
      match digits whole with
      | some n => some n
      | none => none
    | _, _ =>
      match digits whole, digits frac with
      | some n, some k => some (n + (k : ℚ) / 10 ^ frac.length)
      | _, _ => none

/-- The mantissa value `q` scaled by a decimal exponent `ddd`, `+ddd` or `-ddd`. -/
def scale (q : ℚ) : List Char → Option ℚ
  | '+' :: ds =>
    match digits ds with
    | some x => some (q * 10 ^ x)
    | none => none
  | '-' :: ds =>
    match digits ds with
    | some x => some (q / 10 ^ x)
    | none => none
  | ds =>
    match digits ds with
    | some x => some (q * 10 ^ x)
    | none => none

/-- The range check of `strconv.ParseFloat` for 64 bits: a value at or above the
midpoint between the largest `float64` and 2 ^ 1024 is a range error. -/
def inRange (s : String) (q : ℚ) : Except NumError Num :=
  if 2 ^ 1024 - 2 ^ 970 ≤ q then .error (.rangeErr s) else .ok (.rat q)

/-- Conversion of the decimal forms of a Go number literal, a mantissa with an optional
exponent part `e` or `E`: a text of another form is a syntax error, a value too large
for a `float64` a range error. The value is kept exactly (no rounding to binary), and
the hexadecimal forms and digit separators that `strconv.ParseFloat` also accepts are
rejected here. -/
def ParseFloat (s : String) : Except NumError Num :=
  match s.data.span (fun c => c != 'e' && c != 'E') with
  | (man, []) =>
    match mantissa man with
    | some q => inRange s q
    | none => .error (.syntaxErr s)
  | (man, _ :: ex) =>
    match mantissa man with
    | some q =>
      match scale q ex with
      | some v => inRange s v
      | none => .error (.syntaxErr s)
    | none => .error (.syntaxErr s)

/-- The sample model: exact arithmetic on rationals. -/
def model : Float64 Num where
  add := fun x y =>
    match x, y with
    | .rat a, .rat b => .rat (a + b)
    | _, _ => .untracked
  sub := fun x y =>
    match x, y with
    | .rat a, .rat b => .rat (a - b)
    | _, _ => .untracked
  mul := fun x y =>
    match x, y with
    | .rat a, .rat b => .rat (a * b)
    | _, _ => .untracked
  quo := fun x y =>
    match x, y with
    | .rat a, .rat b => if b = 0 then .untracked else .rat (a / b)
    | _, _ => .untracked
  neg := fun x =>
    match x with
    | .rat a => .rat (-a)
    | _ => .untracked
  ParseFloat := ParseFloat
  Sin := .sin
  Cos := .cos
  Log := .log

/-- An `INT` literal. -/
def int (text : String) : Expr := .BasicLit .INT text

/-- The call `name(args...)` with a plain identifier as callee. -/
def call (name : String) (args : List Expr) : Expr := .CallExpr (.Ident name) args

/-- Source text `1 + 2 * 3`, as `go/parser` builds it. -/
def onePlusTwoTimesThree : Expr :=
  .BinaryExpr (int "1") .ADD (.BinaryExpr (int "2") .MUL (int "3"))

/-- Source text `(1 + 2) * 3`. -/
def parenOnePlusTwoTimesThree : Expr :=
  .BinaryExpr (.ParenExpr (.BinaryExpr (int "1") .ADD (int "2"))) .MUL (int "3")

/-- Source text `10 / 2 + 5`. -/
def tenOverTwoPlusFive : Expr :=
  .BinaryExpr (.BinaryExpr (int "10") .QUO (int "2")) .ADD (int "5")

/-- Source text `-5 + 3`. -/
def minusFivePlusThree : Expr :=
  .BinaryExpr (.UnaryExpr .SUB (int "5")) .ADD (int "3")

/-- Source text `3.14 * 2`. -/
def piTimesTwo : Expr :=
  .BinaryExpr (.BasicLit .FLOAT "3.14") .MUL (int "2")

/-- Source text `1 / 0`. -/
def oneOverZero : Expr :=
  .BinaryExpr (int "1") .QUO (int "0")

/-- The variadic function `func(xs ...float64) float64 { return float64(len(xs)) }`. -/
def count : Reflect.FuncValue Num where
  In := []
  Variadic := some .float64
  body := fun ins => .ok [.float64 (.rat ins.length)]

/-- The `reflect.Value` of a function without results, `func()`. -/
def noResult : Reflect.ReflectValue Num :=
  .func {
    In := []
    Variadic := none
    body := fun _ => .ok [] }

/-- The `reflect.Value` of a function with two results, like `math.Sincos`. -/
def sincos : Reflect.ReflectValue Num :=
  .func {
    In := [.float64]
    Variadic := none
    body := fun ins =>
      match ins with
      | [.float64 x] => .ok [.float64 (.sin x), .float64 (.cos x)]
      | _ => .error (.reflectCall "reflect: Call with wrong arguments") }

end Sample

/-! ## The middleware router (`frame/middleware/middleware.go`) -/

namespace Middleware

/-- The type `middleware`, a `func(http.Handler) http.Handler`, over a type `H` of
handlers. -/
abbrev middleware (H : Type) : Type := H → H

/-- The struct `Router`: the middlewares in registration order and the Go map from
routes to handlers. -/
structure Router (H : Type) where
  chain : List (middleware H)
  mux : String → Option H

/-- Function `NewRouter`: no middleware, the empty map. -/
def NewRouter {H : Type} : Router H where
  chain := []
  mux := fun _ => none

/-- Method `Router.Use`: append to the chain. -/
def Router.Use {H : Type} (r : Router H) (m : middleware H) : Router H :=
  { r with chain := r.chain ++ [m] }

/-- Method `Router.Add`: the loop runs over the chain from its last index down to 0,
wrapping the handler merged so far in the middleware at the index; the result is
stored under `route`. -/
def Router.Add {H : Type} (r : Router H) (route : String) (h : H) : Router H :=
  let mergedHandler := r.chain.reverse.foldl (fun merged m => m merged) h
  { r with mux := fun k => if k = route then some mergedHandler else r.mux k }

/-- A request as the handlers of `middleware_test.go` see it: the values of its
context, newest first. -/
abbrev Request : Type := List (String × String)

/-- What serving a request leaves behind: the first argument of every `Println` on the
logger, in order (paths and times are not kept), and the response body. -/
structure Response where
  log : List String
  body : String
  deriving DecidableEq, Repr

/-- A handler of the test: it serves a request, or panics. -/
abbrev Handler : Type := Request → Except Panic Response

/-- The middleware `logger` of the test: it prints, puts the logger into the request
context, serves the next handler with that request, and prints again (deferred, so
also when the next handler panics, in which case the panic goes on). -/
def logger : middleware Handler :=
  fun next r =>
    match next (("logger", "[server] ") :: r) with
    | .ok rsp => .ok { rsp with log := "Begin Request:" :: rsp.log ++ ["End Request:"] }
    | .error p => .error p

/-- The middleware `timer` of the test: it takes the logger out of the request context
(the type assertion panics without one) and prints around the next handler. -/
def timer : middleware Handler :=
  fun next r =>
    match r.lookup "logger" with
    | none => .error (.explicit "interface conversion: interface {} is nil, not *log.Logger")
    | some _ =>
      match next r with
      | .ok rsp => .ok { rsp with log := "time begin:" :: rsp.log ++ ["time elapsed:"] }
      | .error p => .error p

/-- The handler that `TestRouter` adds under `/hello`: it writes the body `hello`, then
takes the logger out of the request context and prints. -/
def helloHandler : Handler :=
  fun r =>
    match r.lookup "logger" with
    | none => .error (.explicit "interface conversion: interface {} is nil, not *log.Logger")
    | some _ => .ok { log := ["hello"], body := "hello" }

/-- The router that `TestRouter` builds. -/
def testRouter : Router Handler :=
  ((NewRouter.Use logger).Use timer).Add "/hello" helloHandler

/-- A middleware seen through the events of a request: it does its entry part, runs
the next handler, and does its exit part. A handler is then the sequence of events of
serving one request. -/
def bracket {E : Type} (entry exit : List E) : middleware (List E) :=
  fun next => entry ++ next ++ exit

end Middleware

/-! ## Service discovery (`frame/etcd/discovery.go`) -/

namespace Etcd

/-- Outcome of a call that uses a lock: it returns, it ends in a Go fatal error
(which no `recover` catches), or it blocks. -/
inductive Outcome (α : Type) where
  | done (v : α)
  | fatal (msg : String)
  | blocked
  deriving DecidableEq, Repr

/-- State of a `sync.RWMutex`: the number of read locks held and whether the write
lock is held. -/
structure RWMutex where
  readers : Nat
  writer : Bool
  deriving DecidableEq, Repr

/-- Method `RWMutex.RLock`: it blocks while the write lock is held. -/
def RWMutex.RLock (rw : RWMutex) : Outcome RWMutex :=
  if rw.writer then .blocked else .done { rw with readers := rw.readers + 1 }

/-- Method `RWMutex.RUnlock`: a fatal error when no read lock is held. -/
def RWMutex.RUnlock (rw : RWMutex) : Outcome RWMutex :=
  if rw.readers = 0 then .fatal "sync: RUnlock of unlocked RWMutex"
  else .done { rw with readers := rw.readers - 1 }

/-- Method `RWMutex.Lock`: it blocks while any lock is held. -/
def RWMutex.Lock (rw : RWMutex) : Outcome RWMutex :=
  if rw.writer || decide (rw.readers ≠ 0) then .blocked else .done { rw with writer := true }

/-- Method `RWMutex.Unlock`: a fatal error when the write lock is not held. -/
def RWMutex.Unlock (rw : RWMutex) : Outcome RWMutex :=
  if rw.writer then .done { rw with writer := false }
  else .fatal "sync: Unlock of unlocked RWMutex"

/-- Method `RWMutex.RLocker`: it returns a `Locker` whose `Lock` and `Unlock` are
`RLock` and `RUnlock` of this mutex. Calling it locks nothing: the state after the
call is the state before. -/
def RWMutex.RLocker (rw : RWMutex) : RWMutex := rw

/-- The struct `Service`, its exported fields (the others are left at their zero
values by `GetServices`). -/
structure Service where
  Key : String
  Val : String
  deriving DecidableEq, Repr

/-- The struct `Discovery`, the fields that `GetServices` and the three setters use:
the Go map `services`, as its entries in iteration order with distinct keys, and the
lock. -/
structure Discovery where
  services : List (String × String)
  locker : RWMutex
  deriving DecidableEq, Repr

/-- Method `Discovery.GetServices`: the discovery after the call and the returned
slice. The deferred `RUnlock` runs when the function returns. -/
def Discovery.GetServices (d : Discovery) : Outcome (Discovery × List Service) :=
  let afterRLocker := d.locker.RLocker
  let services := d.services.map (fun kv => ({ Key := kv.1, Val := kv.2 } : Service))
  match afterRLocker.RUnlock with
  | .done rw => .done ({ d with locker := rw }, services)
  | .fatal msg => .fatal msg
  | .blocked => .blocked

/-- Method `Discovery.setServices`. -/
def Discovery.setServices (d : Discovery) (services : List (String × String)) :
    Outcome Discovery :=
  match d.locker.Lock with
  | .done rw =>
    match rw.Unlock with
    | .done rw2 => .done { services := services, locker := rw2 }
    | .fatal msg => .fatal msg
    | .blocked => .blocked
  | .fatal msg => .fatal msg
  | .blocked => .blocked

/-- Method `Discovery.addService`: the entry of `key` is set to `val`. -/
def Discovery.addService (d : Discovery) (key val : String) : Outcome Discovery :=
  match d.locker.Lock with
  | .done rw =>
    match rw.Unlock with
    | .done rw2 =>
      .done { services := (key, val) :: d.services.filter (fun kv => kv.1 != key),
              locker := rw2 }
    | .fatal msg => .fatal msg
    | .blocked => .blocked
  | .fatal msg => .fatal msg
  | .blocked => .blocked

/-- Method `Discovery.delService`: the entry of `key` is deleted. -/
def Discovery.delService (d : Discovery) (key : String) : Outcome Discovery :=
  match d.locker.Lock with
  | .done rw =>
    match rw.Unlock with
    | .done rw2 =>
      .done { services := d.services.filter (fun kv => kv.1 != key), locker := rw2 }
    | .fatal msg => .fatal msg
    | .blocked => .blocked
  | .fatal msg => .fatal msg
  | .blocked => .blocked

/-- A discovery that knows one service, with its lock not held. -/
def sampleDiscovery : Discovery where
  services := [("/services/a", "10.0.0.1")]
  locker := { readers := 0, writer := false }

end Etcd

/-! ## Properties -/

section SampleLemmas

/-- The sample conversion of the text `0`. -/
theorem Sample.ParseFloat_0 : Sample.ParseFloat "0" = .ok (.rat 0) := by
  simp [Sample.ParseFloat, Sample.mantissa, Sample.inRange, Sample.digits, List.span,
    List.span.loop]
  norm_num

/-- The sample conversion of the text `1`. -/
theorem Sample.ParseFloat_1 : Sample.ParseFloat "1" = .ok (.rat 1) := by
  simp [Sample.ParseFloat, Sample.mantissa, Sample.inRange, Sample.digits, List.span,
    List.span.loop]
  norm_num

/-- The sample conversion of the text `2`. -/
theorem Sample.ParseFloat_2 : Sample.ParseFloat "2" = .ok (.rat 2) := by
  simp [Sample.ParseFloat, Sample.mantissa, Sample.inRange, Sample.digits, List.span,
    List.span.loop]
  norm_num

/-- The sample conversion of the text `3`. -/
theorem Sample.ParseFloat_3 : Sample.ParseFloat "3" = .ok (.rat 3) := by
  simp [Sample.ParseFloat, Sample.mantissa, Sample.inRange, Sample.digits, List.span,
    List.span.loop]
  norm_num

/-- The sample conversion of the text `5`. -/
theorem Sample.ParseFloat_5 : Sample.ParseFloat "5" = .ok (.rat 5) := by
  simp [Sample.ParseFloat, Sample.mantissa, Sample.inRange, Sample.digits, List.span,
    List.span.loop]
  norm_num

/-- The text `1e400` is well formed and out of the range of `float64`. -/
theorem Sample.ParseFloat_1e400 :
    Sample.ParseFloat "1e400" = .error (.rangeErr "1e400") := by
  simp [Sample.ParseFloat, Sample.mantissa, Sample.scale, Sample.inRange, Sample.digits,
    List.span, List.span.loop]
  norm_num

end SampleLemmas

section SimpleLemmas

variable {F : Type} (m : Float64 F) (e : Simple.evaluator F)

/-- The argument loop of the simple evaluator succeeds with `vals` exactly when every
argument evaluates to the value at its position. -/
theorem Simple.evalArgLoop_ok_iff (Args : List Expr) (vals : List F) :
    Simple.evalArgLoop m e Args = .ok vals ↔
      List.Forall₂ (fun arg v => Simple.eval m e arg = .ok v) Args vals := by
  induction Args generalizing vals with
  | nil =>
    cases vals with
    | nil => simp [Simple.evalArgLoop]
    | cons v vs => simp [Simple.evalArgLoop]
  | cons arg rest ih =>
    rw [Simple.evalArgLoop]
    cases h : Simple.eval m e arg with
    | err x => cases vals <;> simp [List.forall₂_cons_left_iff, h]
    | panic p => cases vals <;> simp [List.forall₂_cons_left_iff, h]
    | ok v =>
      cases hr : Simple.evalArgLoop m e rest with
      | err x =>
        cases vals with
        | nil => simp
        | cons w ws =>
          have := (ih ws).not.mp (by simp [hr])
          simp [h, this]
      | panic p =>
        cases vals with
        | nil => simp
        | cons w ws =>
          have := (ih ws).not.mp (by simp [hr])
          simp [h, this]
      | ok vs =>
        cases vals with
        | nil => simp
        | cons w ws =>
          simp only [Result.ok.injEq, List.cons.injEq, List.forall₂_cons, h]
          rw [← ih ws, hr]
          simp

/-- The argument loop of the simple evaluator stops at the first argument that fails
and returns its error. -/
theorem Simple.evalArgLoop_first_err (pre : List Expr) (vals : List F) (arg : Expr)
    (post : List Expr) (x : EvalError)
    (hpre : List.Forall₂ (fun a v => Simple.eval m e a = .ok v) pre vals)
    (harg : Simple.eval m e arg = .err x) :
    Simple.evalArgLoop m e (pre ++ arg :: post) = .err x := by
  induction hpre with
  | nil => simp [Simple.evalArgLoop, harg]
  | cons h _ ih => simp [Simple.evalArgLoop, h, ih]

end SimpleLemmas

section ReflectLemmas

variable {F : Type} (m : Float64 F) (e : Reflect.evaluator F)

/-- Method `evalArgs` succeeds with `vals` exactly when every argument evaluates to the
value at its position. -/
theorem Reflect.evalArgs_ok_iff (Args : List Expr) (vals : List (Reflect.Value F)) :
    Reflect.evalArgs m e Args = .ok vals ↔
      List.Forall₂ (fun arg v => Reflect.eval m e arg = .ok v) Args vals := by
  induction Args generalizing vals with
  | nil =>
    cases vals with
    | nil => simp [Reflect.evalArgs]
    | cons v vs => simp [Reflect.evalArgs]
  | cons arg rest ih =>
    rw [Reflect.evalArgs]
    cases h : Reflect.eval m e arg with
    | err x => cases vals <;> simp [List.forall₂_cons_left_iff, h]
    | panic p => cases vals <;> simp [List.forall₂_cons_left_iff, h]
    | ok v =>
      cases hr : Reflect.evalArgs m e rest with
      | err x =>
        cases vals with
        | nil => simp
        | cons w ws =>
          have := (ih ws).not.mp (by simp [hr])
          simp [h, this]
      | panic p =>
        cases vals with
        | nil => simp
        | cons w ws =>
          have := (ih ws).not.mp (by simp [hr])
          simp [h, this]
      | ok vs =>
        cases vals with
        | nil => simp
        | cons w ws =>
          simp only [Result.ok.injEq, List.cons.injEq, List.forall₂_cons, h]
          rw [← ih ws, hr]
          simp

/-- Method `evalArgs` stops at the first argument that fails and returns its error. -/
theorem Reflect.evalArgs_first_err (pre : List Expr) (vals : List (Reflect.Value F))
    (arg : Expr) (post : List Expr) (x : EvalError)
    (hpre : List.Forall₂ (fun a v => Reflect.eval m e a = .ok v) pre vals)
    (harg : Reflect.eval m e arg = .err x) :
    Reflect.evalArgs m e (pre ++ arg :: post) = .err x := by
  induction hpre with
  | nil => simp [Reflect.evalArgs, harg]
  | cons h _ ih => simp [Reflect.evalArgs, h, ih]

/-- The registry of `main` maps `sin`, `cos` and `add` and nothing else. -/
theorem Reflect.mainRegistry_funcs (k : String) :
    (Reflect.mainRegistry m).funcs k =
      if k = "add" then some (Reflect.ofAnyFunc2 (Reflect.add m))
      else if k = "cos" then some (Reflect.ofFloatFunc m.Cos)
      else if k = "sin" then some (Reflect.ofFloatFunc m.Sin)
      else none := by
  simp [Reflect.mainRegistry, Reflect.Register, Reflect.ofFloatFunc, Reflect.ofAnyFunc2,
    Reflect.ReflectValue.Kind, Reflect.NewFunctionRegistry]

/-- No value of a list is rejected for the element type `elem` when each of them has a
dynamic type assignable to it. -/
theorem Reflect.firstNotElem_none (elem : Reflect.GoType) (vals : List (Reflect.Value F))
    (h : ∀ x ∈ vals, ∃ xt, x.goType = some xt ∧ xt.AssignableTo elem = true) :
    Reflect.firstNotElem elem vals = none := by
  induction vals with
  | nil => simp [Reflect.firstNotElem]
  | cons x xs ih =>
    obtain ⟨xt, hxt, hok⟩ := h x (by simp)
    have hrest := ih (fun y hy => h y (by simp [hy]))
    simp [Reflect.firstNotElem, hxt, hok, hrest]

/-- A list of values with dynamic types holds no nil interface. -/
theorem Reflect.any_isNil_false (elem : Reflect.GoType) (vals : List (Reflect.Value F))
    (h : ∀ x ∈ vals, ∃ xt, x.goType = some xt ∧ xt.AssignableTo elem = true) :
    vals.any Reflect.Value.isNil = false := by
  rw [List.any_eq_false]
  intro x hx
  obtain ⟨xt, hxt, _⟩ := h x hx
  cases x <;> simp [Reflect.Value.isNil, Reflect.Value.goType] at hxt ⊢

/-- A function whose only parameter is variadic is run by `Call` on any number of
arguments assignable to the element type. -/
theorem Reflect.FuncValue.Call_variadic (fn : Reflect.FuncValue F) (elem : Reflect.GoType)
    (vals : List (Reflect.Value F)) (hIn : fn.In = []) (hvar : fn.Variadic = some elem)
    (h : ∀ x ∈ vals, ∃ xt, x.goType = some xt ∧ xt.AssignableTo elem = true) :
    fn.Call vals = fn.body vals := by
  have h1 := Reflect.firstNotElem_none elem vals h
  have h2 := Reflect.any_isNil_false elem vals h
  have h3 : Reflect.firstNotAssignable vals ([] : List Reflect.GoType) = none := by
    cases vals <;> simp [Reflect.firstNotAssignable]
  simp [Reflect.FuncValue.Call, hIn, hvar, h1, h2, h3]

/-- Method `callFunc` returns an error only for a number of results other than one. -/
theorem Reflect.callFunc_err (fn : Reflect.ReflectValue F) (args : List (Reflect.Value F))
    (x : EvalError) (h : Reflect.callFunc fn args = .err x) :
    ∃ out, fn.Call args = .ok out ∧ out.length ≠ 1 ∧ x = .resultCount out.length := by
  unfold Reflect.callFunc at h
  cases hc : fn.Call args with
  | error p => simp [hc] at h
  | ok out =>
    refine ⟨out, rfl, ?_⟩
    rw [hc] at h
    match out, h with
    | [], h => simpa using h.symm
    | [r], h => simp at h
    | r :: r2 :: rest, h => simpa using h.symm

/-- A dotted name with two or more dots is, for `go/parser`, a selector whose operand
is again a selector. -/
theorem dottedCallee_nested (first : String) (rest : List String) (h : 2 ≤ rest.length) :
    ∃ X Sel Sel2, dottedCallee first rest = .SelectorExpr (.SelectorExpr X Sel) Sel2 := by
  obtain ⟨init, last, rfl⟩ : ∃ init last, rest = init ++ [last] :=
    ⟨rest.dropLast, rest.getLast (by intro h0; simp [h0] at h),
      (List.dropLast_append_getLast _).symm⟩
  have h1 : 1 ≤ init.length := by simp at h; omega
  obtain ⟨init2, last2, rfl⟩ : ∃ init2 last2, init = init2 ++ [last2] :=
    ⟨init.dropLast, init.getLast (by intro h0; simp [h0] at h1),
      (List.dropLast_append_getLast _).symm⟩
  exact ⟨dottedCallee first init2, last2, last, by simp [dottedCallee, List.foldl_append]⟩

end ReflectLemmas

/-- C1, counterexample: the `FLOAT` literal `1e400` is a number literal, and the simple
evaluator fails on it, and on `1e400 + 1`, with the range error of the conversion. -/
theorem simple_eval_literal_counterexample :
    Simple.eval Sample.model (Simple.NewEvaluator Sample.model) (.BasicLit .FLOAT "1e400")
        = .err (.strconv (.rangeErr "1e400")) ∧
      Simple.eval Sample.model (Simple.NewEvaluator Sample.model)
        (.BinaryExpr (.BasicLit .FLOAT "1e400") .ADD (Sample.int "1"))
        = .err (.strconv (.rangeErr "1e400")) := by
  simp [Simple.eval, Sample.model, Sample.ParseFloat_1e400]

/-- C1, amended. In the simple evaluator every tree of the arithmetic fragment (number
literals whose text the conversion accepts, parentheses, unary `+ -`, binary
`+ - * /`) evaluates successfully, to the standard arithmetic value of the tree; no
value of a divisor leads to an error. A number literal whose text the conversion
rejects fails with the error of the conversion. -/
theorem simple_eval_arithmetic {F : Type} (m : Float64 F) (e : Simple.evaluator F)
    (t : Expr) (n : ExprNode F) (Kind : Token) (text : String) (x : NumError)
    (h : Represents m t n)
    (hKind : Kind = .INT ∨ Kind = .FLOAT) (htext : m.ParseFloat text = .error x) :
    Simple.eval m e t = .ok (n.value m) ∧
      Simple.eval m e (.BasicLit Kind text) = .err (.strconv x) := by
  constructor
  · induction h with
    | int text v h => simp [Simple.eval, h, ExprNode.value]
    | float text v h => simp [Simple.eval, h, ExprNode.value]
    | unary op X x _ ih =>
      cases op <;> simp [Simple.eval, ih, ExprNode.value, UnaryOperator.token]
    | binary op X Y x y _ _ ihx ihy =>
      cases op <;> simp [Simple.eval, ihx, ihy, ExprNode.value, BinaryOperator.token]
    | paren X x _ ih => simp [Simple.eval, ih, ExprNode.value]
  · rcases hKind with hk | hk <;> simp [Simple.eval, hk, htext]

/-- Witness of C1 amended: `1 + 2 * 3` gives 7, `(1 + 2) * 3` gives 9, `-5 + 3` gives
-2, `1 / 0` gives a value (one the sample model does not follow), not an error, and
the literal `1e400` fails with the range error of the conversion. -/
theorem simple_eval_arithmetic_witness :
    Represents Sample.model Sample.onePlusTwoTimesThree
        (.BinaryOp .Add (.NumberLiteral (.rat 1))
          (.BinaryOp .Mul (.NumberLiteral (.rat 2)) (.NumberLiteral (.rat 3)))) ∧
      Simple.eval Sample.model (Simple.NewEvaluator Sample.model) Sample.onePlusTwoTimesThree
        = .ok (.rat 7) ∧
      Simple.eval Sample.model (Simple.NewEvaluator Sample.model)
        Sample.parenOnePlusTwoTimesThree = .ok (.rat 9) ∧
      Simple.eval Sample.model (Simple.NewEvaluator Sample.model) Sample.minusFivePlusThree
        = .ok (.rat (-2)) ∧
      Simple.eval Sample.model (Simple.NewEvaluator Sample.model) Sample.oneOverZero
        = .ok .untracked ∧
      Simple.eval Sample.model (Simple.NewEvaluator Sample.model) (.BasicLit .FLOAT "1e400")
        = .err (.strconv (.rangeErr "1e400")) := by
  have p0 : Sample.model.ParseFloat "0" = .ok (.rat 0) := Sample.ParseFloat_0
  have p1 : Sample.model.ParseFloat "1" = .ok (.rat 1) := Sample.ParseFloat_1
  have p2 : Sample.model.ParseFloat "2" = .ok (.rat 2) := Sample.ParseFloat_2
  have p3 : Sample.model.ParseFloat "3" = .ok (.rat 3) := Sample.ParseFloat_3
  have p5 : Sample.model.ParseFloat "5" = .ok (.rat 5) := Sample.ParseFloat_5
  have pe : Sample.model.ParseFloat "1e400" = .error (.rangeErr "1e400") :=
    Sample.ParseFloat_1e400
  have h1 : Represents Sample.model Sample.onePlusTwoTimesThree
      (.BinaryOp .Add (.NumberLiteral (.rat 1))
        (.BinaryOp .Mul (.NumberLiteral (.rat 2)) (.NumberLiteral (.rat 3)))) :=
    .binary .Add _ _ _ _ (.int "1" _ p1) (.binary .Mul _ _ _ _ (.int "2" _ p2) (.int "3" _ p3))
  have h2 : Represents Sample.model Sample.parenOnePlusTwoTimesThree
      (.BinaryOp .Mul (.Parenthesized (.BinaryOp .Add (.NumberLiteral (.rat 1))
        (.NumberLiteral (.rat 2)))) (.NumberLiteral (.rat 3))) :=
    .binary .Mul _ _ _ _ (.paren _ _ (.binary .Add _ _ _ _ (.int "1" _ p1) (.int "2" _ p2)))
      (.int "3" _ p3)
  have h3 : Represents Sample.model Sample.minusFivePlusThree
      (.BinaryOp .Add (.UnaryOp .Minus (.NumberLiteral (.rat 5))) (.NumberLiteral (.rat 3))) :=
    .binary .Add _ _ _ _ (.unary .Minus _ _ (.int "5" _ p5)) (.int "3" _ p3)
  have h4 : Represents Sample.model Sample.oneOverZero
      (.BinaryOp .Div (.NumberLiteral (.rat 1)) (.NumberLiteral (.rat 0))) :=
    .binary .Div _ _ _ _ (.int "1" _ p1) (.int "0" _ p0)
  have run := fun t n (h : Represents Sample.model t n) =>
    simple_eval_arithmetic Sample.model (Simple.NewEvaluator Sample.model) t n .FLOAT "1e400"
      (.rangeErr "1e400") h (.inr rfl) pe
  refine ⟨h1, ?_, ?_, ?_, ?_, (run _ _ h1).2⟩
  · rw [(run _ _ h1).1]
    simp [ExprNode.value, Sample.model]
    norm_num
  · rw [(run _ _ h2).1]
    simp [ExprNode.value, Sample.model]
    norm_num
  · rw [(run _ _ h3).1]
    simp [ExprNode.value, Sample.model]
    norm_num
  · rw [(run _ _ h4).1]
    simp [ExprNode.value, Sample.model]

/-- The reflect evaluator has no case for binary or unary nodes: both fall into the
default branch, whatever the operator and the operands. -/
theorem Reflect.eval_binary_unary {F : Type} (m : Float64 F) (e : Reflect.evaluator F)
    (X Y : Expr) (Op : Token) :
    Reflect.eval m e (.BinaryExpr X Op Y) = .err (.unsupportedExprType "*ast.BinaryExpr") ∧
      Reflect.eval m e (.UnaryExpr Op X) = .err (.unsupportedExprType "*ast.UnaryExpr") := by
  simp [Reflect.eval, Expr.goType]

/-- C2, at the sample expressions of `main`: the reflect evaluator fails on each of
`1 + 2 * 3`, `(1 + 2) * 3`, `10 / 2 + 5`, `-5 + 3` and `3.14 * 2` with the error for an
unsupported expression type, where the simple evaluator returns 7 for the first. -/
theorem reflect_eval_arithmetic_fails :
    (∀ t ∈ [Sample.onePlusTwoTimesThree, Sample.parenOnePlusTwoTimesThree,
        Sample.tenOverTwoPlusFive, Sample.minusFivePlusThree, Sample.piTimesTwo],
      Reflect.eval Sample.model (Reflect.NewEvaluator (Reflect.mainRegistry Sample.model)) t
        = .err (.unsupportedExprType "*ast.BinaryExpr")) ∧
      Simple.eval Sample.model (Simple.NewEvaluator Sample.model) Sample.onePlusTwoTimesThree
        = .ok (.rat 7) := by
  constructor
  · intro t ht
    simp only [List.mem_cons, List.mem_singleton, List.not_mem_nil, or_false] at ht
    rcases ht with h | h | h | h | h <;> subst h <;>
      exact (Reflect.eval_binary_unary _ _ _ _ _).1
  · simp [Simple.eval, Sample.onePlusTwoTimesThree, Sample.int, Sample.model,
      Sample.ParseFloat_0, Sample.ParseFloat_1, Sample.ParseFloat_2, Sample.ParseFloat_3,
      Sample.ParseFloat_5]
    norm_num

/-- C3, counterexample: in the simple evaluator `sin(1, 2)` returns the value of `sin`
at 1, and in the reflect evaluator `sin(1, 2)` and `sin()` end in the panic of
`reflect.Value.Call`; none of them returns an error. -/
theorem call_arity_counterexample :
    Simple.eval Sample.model (Simple.NewEvaluator Sample.model)
        (Sample.call "sin" [Sample.int "1", Sample.int "2"]) = .ok (.sin (.rat 1)) ∧
      Reflect.eval Sample.model (Reflect.NewEvaluator (Reflect.mainRegistry Sample.model))
        (Sample.call "sin" [Sample.int "1", Sample.int "2"])
        = .panic (.reflectCall "reflect: Call with too many input arguments") ∧
      Reflect.eval Sample.model (Reflect.NewEvaluator (Reflect.mainRegistry Sample.model))
        (Sample.call "sin" []) = .panic (.reflectCall "reflect: Call with too few input arguments") := by
  refine ⟨?_, ?_, ?_⟩
  · simp [Simple.eval, Simple.evalArgLoop, Simple.NewEvaluator, Sample.call, Sample.int,
      Sample.model, Sample.ParseFloat_0, Sample.ParseFloat_1, Sample.ParseFloat_2, Sample.ParseFloat_3,
      Sample.ParseFloat_5]
  · simp [Reflect.eval, Reflect.evalArgs, Reflect.funcName, Reflect.NewEvaluator,
      Reflect.mainRegistry_funcs, Reflect.callFunc, Reflect.ReflectValue.Call,
      Reflect.FuncValue.Call, Reflect.ofFloatFunc, Sample.call, Sample.int,
      Sample.model, Sample.ParseFloat_0, Sample.ParseFloat_1, Sample.ParseFloat_2, Sample.ParseFloat_3,
      Sample.ParseFloat_5]
  · simp [Reflect.eval, Reflect.evalArgs, Reflect.funcName, Reflect.NewEvaluator,
      Reflect.mainRegistry_funcs, Reflect.callFunc, Reflect.ReflectValue.Call,
      Reflect.FuncValue.Call, Reflect.ofFloatFunc, Sample.call]

/-- C3, amended: the number of arguments is not reported as an error. In the simple
evaluator a call of a registered function whose arguments, one or more, all evaluate
successfully returns the function at the value of the first argument. In the reflect
evaluator `callFunc` hands the arguments to `reflect.Value.Call` unchecked: a callable
whose one parameter is variadic, called with any number of values assignable to the
element type, returns its single result, and the only error `callFunc` ever returns is
the one for a number of results other than one. -/
theorem call_arity_not_an_error {F : Type} (m : Float64 F) (e : Simple.evaluator F)
    (name : String) (fn : F → F) (Args : List Expr) (v : F) (vs : List F)
    (f : Reflect.FuncValue F) (elem : Reflect.GoType) (vals : List (Reflect.Value F))
    (hfn : e.funcs name = some fn)
    (hargs : List.Forall₂ (fun arg w => Simple.eval m e arg = .ok w) Args (v :: vs))
    (hIn : f.In = []) (hvar : f.Variadic = some elem)
    (hvals : ∀ x ∈ vals, ∃ xt, x.goType = some xt ∧ xt.AssignableTo elem = true) :
    Simple.eval m e (.CallExpr (.Ident name) Args) = .ok (fn v) ∧
      (∀ r, f.body vals = .ok [r] → Reflect.callFunc (.func f) vals = .ok r) ∧
      (∀ (g : Reflect.ReflectValue F) (args : List (Reflect.Value F)) (x : EvalError),
        Reflect.callFunc g args = .err x →
        ∃ out, g.Call args = .ok out ∧ out.length ≠ 1 ∧ x = .resultCount out.length) := by
  refine ⟨?_, ?_, ?_⟩
  · have h := (Simple.evalArgLoop_ok_iff m e Args (v :: vs)).mpr hargs
    simp [Simple.eval, hfn, h]
  · intro r hr
    have hc := Reflect.FuncValue.Call_variadic f elem vals hIn hvar hvals
    simp [Reflect.callFunc, Reflect.ReflectValue.Call, hc, hr]
  · intro g args x hx
    exact Reflect.callFunc_err g args x hx

/-- Witness of C3 amended: `sin(1, 2)` in the simple evaluator, and the variadic
function of one parameter that counts its arguments, called through `callFunc` with
three values. -/
theorem call_arity_not_an_error_witness :
    Simple.eval Sample.model (Simple.NewEvaluator Sample.model)
        (.CallExpr (.Ident "sin") [Sample.int "1", Sample.int "2"])
        = .ok (Sample.model.Sin (.rat 1)) ∧
      Reflect.callFunc (.func Sample.count)
        [.float64 (.rat 1), .float64 (.rat 2), .float64 (.rat 3)]
        = .ok (.float64 (.rat 3)) := by
  have h := call_arity_not_an_error Sample.model (Simple.NewEvaluator Sample.model) "sin"
    Sample.model.Sin [Sample.int "1", Sample.int "2"] (.rat 1) [.rat 2]
    Sample.count .float64 [.float64 (.rat 1), .float64 (.rat 2), .float64 (.rat 3)]
    (by simp [Simple.NewEvaluator])
    (by simp [Simple.eval, Sample.int, Sample.model, Sample.ParseFloat_1,
      Sample.ParseFloat_2])
    rfl rfl
    (by simp [Reflect.Value.goType, Reflect.GoType.AssignableTo])
  exact ⟨h.1, h.2.1 _ (by simp [Sample.count])⟩

/-- C4, at the failing input: `sin()` in the simple evaluator ends in the panic of the
index expression `args[0]` on an empty slice. -/
theorem simple_eval_call_without_args_panics :
    Simple.eval Sample.model (Simple.NewEvaluator Sample.model) (Sample.call "sin" [])
      = .panic (.indexOutOfRange 0 0) := by
  simp [Simple.eval, Simple.evalArgLoop, Simple.NewEvaluator, Sample.call]

/-- C5, counterexample: `log(x)` against the registry of `main`, which lacks `log`,
fails with the unknown-function error for `log`, although its argument `x` fails with
the unsupported-identifier error; the simple evaluator does the same on `exp(x)`. -/
theorem call_lookup_counterexample :
    Reflect.eval Sample.model (Reflect.NewEvaluator (Reflect.mainRegistry Sample.model))
        (Sample.call "log" [.Ident "x"]) = .err (.unsupportedFunction "log") ∧
      Reflect.eval Sample.model (Reflect.NewEvaluator (Reflect.mainRegistry Sample.model))
        (.Ident "x") = .err (.unsupportedIdent "x") ∧
      Simple.eval Sample.model (Simple.NewEvaluator Sample.model)
        (Sample.call "exp" [.Ident "x"]) = .err (.unsupportedFunction "exp") := by
  refine ⟨?_, ?_, ?_⟩
  · simp [Reflect.eval, Reflect.funcName, Reflect.NewEvaluator, Reflect.mainRegistry_funcs,
      Sample.call]
  · simp [Reflect.eval]
  · simp [Simple.eval, Simple.NewEvaluator, Sample.call]

/-- C5, amended: in both evaluators the function name is looked up before any argument
is evaluated. A call of a name that is absent from the table fails with the
unknown-function error whatever its arguments are; a call of a name that is present,
in which some argument fails, fails with the error of the first failing argument, left
to right. -/
theorem call_lookup_before_arguments {F : Type} (m : Float64 F) (es : Simple.evaluator F)
    (er : Reflect.evaluator F) (name : String) (Args : List Expr) :
    (es.funcs name = none →
        Simple.eval m es (.CallExpr (.Ident name) Args) = .err (.unsupportedFunction name)) ∧
      (er.registry.funcs name = none →
        Reflect.eval m er (.CallExpr (.Ident name) Args) = .err (.unsupportedFunction name)) ∧
      (∀ (fn : F → F) (pre post : List Expr) (arg : Expr) (vals : List F) (x : EvalError),
        es.funcs name = some fn → Args = pre ++ arg :: post →
        List.Forall₂ (fun a v => Simple.eval m es a = .ok v) pre vals →
        Simple.eval m es arg = .err x →
        Simple.eval m es (.CallExpr (.Ident name) Args) = .err x) ∧
      (∀ (f : Reflect.ReflectValue F) (pre post : List Expr) (arg : Expr)
        (vals : List (Reflect.Value F)) (x : EvalError),
        er.registry.funcs name = some f → Args = pre ++ arg :: post →
        List.Forall₂ (fun a v => Reflect.eval m er a = .ok v) pre vals →
        Reflect.eval m er arg = .err x →
        Reflect.eval m er (.CallExpr (.Ident name) Args) = .err x) := by
  refine ⟨?_, ?_, ?_, ?_⟩
  · intro h
    simp [Simple.eval, h]
  · intro h
    simp [Reflect.eval, Reflect.funcName, h]
  · intro fn pre post arg vals x hfn hArgs hpre harg
    subst hArgs
    simp [Simple.eval, hfn, Simple.evalArgLoop_first_err m es pre vals arg post x hpre harg]
  · intro f pre post arg vals x hf hArgs hpre harg
    subst hArgs
    simp [Reflect.eval, Reflect.funcName, hf,
      Reflect.evalArgs_first_err m er pre vals arg post x hpre harg]

/-- Witness of C5 amended, at the tables of the two `main` functions: `exp(1, x)` and
`log(1, x)` fail on the name; `sin(1, x, y)` fails on `x`, the first failing argument. -/
theorem call_lookup_before_arguments_witness :
    Simple.eval Sample.model (Simple.NewEvaluator Sample.model)
        (.CallExpr (.Ident "exp") [Sample.int "1", .Ident "x"])
        = .err (.unsupportedFunction "exp") ∧
      Reflect.eval Sample.model (Reflect.NewEvaluator (Reflect.mainRegistry Sample.model))
        (.CallExpr (.Ident "log") [Sample.int "1", .Ident "x"])
        = .err (.unsupportedFunction "log") ∧
      Simple.eval Sample.model (Simple.NewEvaluator Sample.model)
        (.CallExpr (.Ident "sin") [Sample.int "1", .Ident "x", .Ident "y"])
        = .err (.unsupportedIdent "x") ∧
      Reflect.eval Sample.model (Reflect.NewEvaluator (Reflect.mainRegistry Sample.model))
        (.CallExpr (.Ident "sin") [Sample.int "1", .Ident "x", .Ident "y"])
        = .err (.unsupportedIdent "x") := by
  have p1 : Sample.ParseFloat "1" = .ok (.rat 1) := by
    simp [Sample.ParseFloat_0, Sample.ParseFloat_1, Sample.ParseFloat_2, Sample.ParseFloat_3,
      Sample.ParseFloat_5]
  refine ⟨?_, ?_, ?_, ?_⟩
  · exact (call_lookup_before_arguments Sample.model (Simple.NewEvaluator Sample.model)
      (Reflect.NewEvaluator (Reflect.mainRegistry Sample.model)) "exp"
      [Sample.int "1", .Ident "x"]).1 (by simp [Simple.NewEvaluator])
  · exact (call_lookup_before_arguments Sample.model (Simple.NewEvaluator Sample.model)
      (Reflect.NewEvaluator (Reflect.mainRegistry Sample.model)) "log"
      [Sample.int "1", .Ident "x"]).2.1 (by
        simp [Reflect.NewEvaluator, Reflect.mainRegistry_funcs])
  · exact (call_lookup_before_arguments Sample.model (Simple.NewEvaluator Sample.model)
      (Reflect.NewEvaluator (Reflect.mainRegistry Sample.model)) "sin"
      [Sample.int "1", .Ident "x", .Ident "y"]).2.2.1 Sample.model.Sin [Sample.int "1"]
      [.Ident "y"] (.Ident "x") [.rat 1] (.unsupportedIdent "x")
      (by simp [Simple.NewEvaluator]) (by simp)
      (by simp [Simple.eval, Sample.int, Sample.model, p1]) (by simp [Simple.eval])
  · exact (call_lookup_before_arguments Sample.model (Simple.NewEvaluator Sample.model)
      (Reflect.NewEvaluator (Reflect.mainRegistry Sample.model)) "sin"
      [Sample.int "1", .Ident "x", .Ident "y"]).2.2.2
      (Reflect.ofFloatFunc Sample.model.Sin) [Sample.int "1"]
      [.Ident "y"] (.Ident "x") [.float64 (.rat 1)] (.unsupportedIdent "x")
      (by simp [Reflect.NewEvaluator, Reflect.mainRegistry_funcs]) (by simp)
      (by simp [Reflect.eval, Sample.int, Sample.model, p1]) (by simp [Reflect.eval])

/-- C6, counterexample: the `add` callable of `main`, called through `callFunc` with a
`float64` and an `int` in either order, or with a string and a `float64`, ends in its
explicit panic; no error is returned. -/
theorem add_mismatch_counterexample :
    Reflect.callFunc (Reflect.ofAnyFunc2 (Reflect.add Sample.model))
        [.float64 (.rat 5), .int 3] = .panic (.explicit "类型不匹配") ∧
      Reflect.callFunc (Reflect.ofAnyFunc2 (Reflect.add Sample.model))
        [.int 3, .float64 (.rat 5)] = .panic (.explicit "类型不匹配") ∧
      Reflect.callFunc (Reflect.ofAnyFunc2 (Reflect.add Sample.model))
        [.string "3", .float64 (.rat 5)] = .panic (.explicit "不支持的类型") := by
  simp [Reflect.callFunc, Reflect.ReflectValue.Call, Reflect.FuncValue.Call,
    Reflect.ofAnyFunc2, Reflect.add, Reflect.firstNotAssignable, Reflect.Value.goType,
    Reflect.GoType.AssignableTo, Reflect.Value.isNil]

/-- C6, amended: for every pair of dynamic values of which one is a `float64` and the
other is not, calling the `add` callable registered by `main` through `callFunc` ends
in a panic; it returns neither a sum nor an error. -/
theorem add_mismatch_panics {F : Type} (m : Float64 F) (a b : Reflect.Value F)
    (h : a.isFloat64 ≠ b.isFloat64) :
    ∃ fn, (Reflect.mainRegistry m).funcs "add" = some fn ∧
      ∃ p, Reflect.callFunc fn [a, b] = .panic p := by
  refine ⟨Reflect.ofAnyFunc2 (Reflect.add m), ?_, ?_⟩
  · simp [Reflect.mainRegistry_funcs]
  · cases a <;> cases b <;>
      simp [Reflect.Value.isFloat64] at h <;>
      simp [Reflect.callFunc, Reflect.ReflectValue.Call, Reflect.FuncValue.Call,
        Reflect.ofAnyFunc2, Reflect.add, Reflect.firstNotAssignable, Reflect.Value.goType,
        Reflect.GoType.AssignableTo, Reflect.Value.isNil]

/-- Witness of C6 amended: a `float64` with an `int`. -/
theorem add_mismatch_panics_witness :
    ∃ fn, (Reflect.mainRegistry Sample.model).funcs "add" = some fn ∧
      ∃ p, Reflect.callFunc fn [.float64 (.rat 5), .int 3] = .panic p :=
  add_mismatch_panics Sample.model (.float64 (.rat 5)) (.int 3)
    (by simp [Reflect.Value.isFloat64])

/-- C7. A binary node of the simple evaluator fails with the error of its left operand
when that fails, and with the error of its right operand when the left one succeeds
and the right one fails, whatever the operator is. -/
theorem simple_binary_short_circuit {F : Type} (m : Float64 F) (e : Simple.evaluator F)
    (X Y : Expr) (Op : Token) (x : EvalError)
    (h : Simple.eval m e X = .err x ∨
      ∃ left, Simple.eval m e X = .ok left ∧ Simple.eval m e Y = .err x) :
    Simple.eval m e (.BinaryExpr X Op Y) = .err x := by
  rcases h with h | ⟨left, hl, hr⟩
  · simp [Simple.eval, h]
  · simp [Simple.eval, hl, hr]

/-- Witness of C7: `x + 2` and `2 % x` fail with the unsupported-identifier error of
`x`. -/
theorem simple_binary_short_circuit_witness :
    Simple.eval Sample.model (Simple.NewEvaluator Sample.model)
        (.BinaryExpr (.Ident "x") .ADD (Sample.int "2")) = .err (.unsupportedIdent "x") ∧
      Simple.eval Sample.model (Simple.NewEvaluator Sample.model)
        (.BinaryExpr (Sample.int "2") .REM (.Ident "x")) = .err (.unsupportedIdent "x") :=
  ⟨simple_binary_short_circuit Sample.model _ (.Ident "x") (Sample.int "2") .ADD _
      (.inl (by simp [Simple.eval])),
    simple_binary_short_circuit Sample.model _ (Sample.int "2") (.Ident "x") .REM _
      (.inr ⟨.rat 2, by
        simp [Simple.eval, Sample.int, Sample.model, Sample.ParseFloat_0, Sample.ParseFloat_1, Sample.ParseFloat_2, Sample.ParseFloat_3,
      Sample.ParseFloat_5], by simp [Simple.eval]⟩)⟩

/-- C8. Method `Register` returns an error exactly when `fn` is not a function value;
when it does, every name is mapped as before; when it returns no error, the lookup of
`name` yields `fn`. -/
theorem register_spec {F : Type} (r : Reflect.functionRegistry F) (name : String)
    (fn : Reflect.ReflectValue F) :
    ((Reflect.Register r name fn).2 ≠ none ↔ ¬ ∃ f, fn = .func f) ∧
      ((Reflect.Register r name fn).2 ≠ none →
        ∀ k, (Reflect.Register r name fn).1.funcs k = r.funcs k) ∧
      ((Reflect.Register r name fn).2 = none →
        (Reflect.Register r name fn).1.funcs name = some fn) := by
  refine ⟨?_, ?_, ?_⟩
  · cases fn with
    | func v => simp [Reflect.Register, Reflect.ReflectValue.Kind]
    | value v => cases v <;> simp [Reflect.Register, Reflect.ReflectValue.Kind]
  · cases fn with
    | func v => simp [Reflect.Register, Reflect.ReflectValue.Kind]
    | value v => cases v <;> simp [Reflect.Register, Reflect.ReflectValue.Kind]
  · cases fn with
    | func v => simp [Reflect.Register, Reflect.ReflectValue.Kind]
    | value v => cases v <;> simp [Reflect.Register, Reflect.ReflectValue.Kind]

/-- Witness of C8: registering the number 3 as `pi` in the registry of `main` fails and
leaves every name as it was; registering `math.Log` as `log` succeeds and `log` then
yields it. -/
theorem register_spec_witness :
    (Reflect.Register (Reflect.mainRegistry Sample.model) "pi"
        (.value (.float64 (.rat 3)))).2 = some .notAFunction ∧
      (∀ k, (Reflect.Register (Reflect.mainRegistry Sample.model) "pi"
        (.value (.float64 (.rat 3)))).1.funcs k = (Reflect.mainRegistry Sample.model).funcs k) ∧
      (Reflect.Register (Reflect.mainRegistry Sample.model) "log"
        (Reflect.ofFloatFunc Sample.model.Log)).2 = none ∧
      (Reflect.Register (Reflect.mainRegistry Sample.model) "log"
        (Reflect.ofFloatFunc Sample.model.Log)).1.funcs "log"
        = some (Reflect.ofFloatFunc Sample.model.Log) :=
  ⟨by simp [Reflect.Register, Reflect.ReflectValue.Kind],
    (register_spec (Reflect.mainRegistry Sample.model) "pi" (.value (.float64 (.rat 3)))).2.1
      (by simp [Reflect.Register, Reflect.ReflectValue.Kind]),
    by simp [Reflect.Register, Reflect.ReflectValue.Kind, Reflect.ofFloatFunc],
    (register_spec (Reflect.mainRegistry Sample.model) "log"
      (Reflect.ofFloatFunc Sample.model.Log)).2.2
      (by simp [Reflect.Register, Reflect.ReflectValue.Kind, Reflect.ofFloatFunc])⟩

/-- C9. Method `callFunc` returns a value exactly when the call yields exactly one
result, and then it returns that result; when the call yields a number of results
other than one, it fails with the result-count error carrying that number. -/
theorem callFunc_single_result {F : Type} (fn : Reflect.ReflectValue F)
    (args : List (Reflect.Value F)) :
    (∀ v, Reflect.callFunc fn args = .ok v ↔ fn.Call args = .ok [v]) ∧
      (∀ out, fn.Call args = .ok out → out.length ≠ 1 →
        Reflect.callFunc fn args = .err (.resultCount out.length)) := by
  constructor
  · intro v
    unfold Reflect.callFunc
    cases hc : fn.Call args with
    | error p => simp
    | ok out =>
      match out with
      | [] => simp
      | [r] => simp
      | r :: r2 :: rest => simp
  · intro out hc hlen
    simp [Reflect.callFunc, hc, hlen]

/-- Witness of C9: `math.Sin` at 0 yields one result, which `callFunc` returns; a
function without results and one with two results fail with the counts 0 and 2. -/
theorem callFunc_single_result_witness :
    Reflect.callFunc (Reflect.ofFloatFunc Sample.model.Sin) [.float64 (.rat 0)]
        = .ok (.float64 (.sin (.rat 0))) ∧
      Reflect.callFunc Sample.noResult [] = .err (.resultCount 0) ∧
      Reflect.callFunc Sample.sincos [.float64 (.rat 0)] = .err (.resultCount 2) :=
  ⟨((callFunc_single_result (Reflect.ofFloatFunc Sample.model.Sin)
      [.float64 (.rat 0)]).1 _).mpr (by
        simp [Reflect.ReflectValue.Call, Reflect.FuncValue.Call, Reflect.ofFloatFunc,
          Reflect.firstNotAssignable, Reflect.Value.goType, Reflect.GoType.AssignableTo,
          Reflect.Value.isNil, Sample.model]),
    (callFunc_single_result Sample.noResult []).2 [] (by
      simp [Reflect.ReflectValue.Call, Reflect.FuncValue.Call, Sample.noResult,
        Reflect.firstNotAssignable]) (by simp),
    (callFunc_single_result Sample.sincos [.float64 (.rat 0)]).2
      [.float64 (.sin (.rat 0)), .float64 (.cos (.rat 0))] (by
        simp [Reflect.ReflectValue.Call, Reflect.FuncValue.Call, Sample.sincos,
          Reflect.firstNotAssignable, Reflect.Value.goType, Reflect.GoType.AssignableTo,
          Reflect.Value.isNil])
      (by simp)⟩

/-- C10, counterexample: with a callable registered under the string `a.b.c`, the
call `a.b.c(1)` is rejected with the error for an unsupported callee type. -/
theorem dotted_call_counterexample :
    (Reflect.Register Reflect.NewFunctionRegistry (dottedName "a" ["b", "c"])
        (Reflect.ofFloatFunc Sample.model.Sin)).1.funcs "a.b.c"
        = some (Reflect.ofFloatFunc Sample.model.Sin) ∧
      Reflect.eval Sample.model
        (Reflect.NewEvaluator (Reflect.Register Reflect.NewFunctionRegistry
          (dottedName "a" ["b", "c"]) (Reflect.ofFloatFunc Sample.model.Sin)).1)
        (.CallExpr (dottedCallee "a" ["b", "c"]) [Sample.int "1"])
        = .err (.unsupportedCallType "*ast.SelectorExpr") := by
  constructor
  · simp [Reflect.Register, Reflect.ReflectValue.Kind, Reflect.ofFloatFunc, dottedName]
  · simp [Reflect.eval, Reflect.funcName, dottedCallee, Expr.goType]

/-- C10, amended: a dotted name with one dot, `pkg.Func`, resolves through the flat key
`pkg.Func`: when a callable is registered under the full dotted string and the
arguments evaluate successfully, the call gives what `callFunc` gives for that
callable on the argument values (the same holds for a name without a dot). A name
with two or more dots, such as `a.b.c`, is rejected with the error for an unsupported
callee type, although a callable is registered under its full dotted string. -/
theorem dotted_call_dispatch {F : Type} (m : Float64 F) (e : Reflect.evaluator F)
    (first : String) (rest : List String) (f : Reflect.ReflectValue F) (Args : List Expr)
    (vals : List (Reflect.Value F))
    (hreg : e.registry.funcs (dottedName first rest) = some f)
    (hargs : List.Forall₂ (fun arg v => Reflect.eval m e arg = .ok v) Args vals) :
    (rest.length ≤ 1 →
        Reflect.eval m e (.CallExpr (dottedCallee first rest) Args) = Reflect.callFunc f vals) ∧
      (2 ≤ rest.length →
        Reflect.eval m e (.CallExpr (dottedCallee first rest) Args)
          = .err (.unsupportedCallType "*ast.SelectorExpr")) := by
  have ha := (Reflect.evalArgs_ok_iff m e Args vals).mpr hargs
  constructor
  · intro hlen
    match rest, hreg, hlen with
    | [], hreg, _ =>
      simp only [dottedName, List.foldl_nil] at hreg
      simp [Reflect.eval, Reflect.funcName, dottedCallee, hreg, ha]
    | [Sel], hreg, _ =>
      simp only [dottedName, List.foldl_cons, List.foldl_nil] at hreg
      simp [Reflect.eval, Reflect.funcName, dottedCallee, hreg, ha]
    | _ :: _ :: _, _, hlen => simp at hlen
  · intro hlen
    obtain ⟨X, Sel, Sel2, hc⟩ := dottedCallee_nested first rest hlen
    simp [Reflect.eval, Reflect.funcName, hc, Expr.goType]

/-- Witness of C10 amended: with `math.Sin` registered as `pkg.Func`, the call
`pkg.Func(1)` gives the value of `math.Sin` at 1. -/
theorem dotted_call_dispatch_witness :
    Reflect.eval Sample.model
        (Reflect.NewEvaluator (Reflect.Register Reflect.NewFunctionRegistry "pkg.Func"
          (Reflect.ofFloatFunc Sample.model.Sin)).1)
        (.CallExpr (.SelectorExpr (.Ident "pkg") "Func") [Sample.int "1"])
      = .ok (.float64 (.sin (.rat 1))) := by
  have h := (dotted_call_dispatch Sample.model
    (Reflect.NewEvaluator (Reflect.Register Reflect.NewFunctionRegistry "pkg.Func"
      (Reflect.ofFloatFunc Sample.model.Sin)).1)
    "pkg" ["Func"] (Reflect.ofFloatFunc Sample.model.Sin) [Sample.int "1"]
    [.float64 (.rat 1)]
    (by simp [Reflect.NewEvaluator, Reflect.Register, Reflect.ReflectValue.Kind,
      Reflect.ofFloatFunc, dottedName])
    (by simp [Reflect.eval, Sample.int, Sample.model, Sample.ParseFloat_0, Sample.ParseFloat_1, Sample.ParseFloat_2, Sample.ParseFloat_3,
      Sample.ParseFloat_5])).1 (by simp)
  rw [show dottedCallee "pkg" ["Func"] = .SelectorExpr (.Ident "pkg") "Func" from rfl] at h
  rw [h]
  simp [Reflect.callFunc, Reflect.ReflectValue.Call, Reflect.FuncValue.Call,
    Reflect.ofFloatFunc, Reflect.firstNotAssignable, Reflect.Value.goType,
    Reflect.GoType.AssignableTo, Reflect.Value.isNil, Sample.model]

/-- C11. In both evaluators a call of a name that is absent from the function table
fails with the unknown-function error carrying that name; this holds whatever the
arguments are, so also when all of them evaluate successfully. In the reflect
evaluator the name is the one the callee stands for, an identifier or `pkg.Func`. -/
theorem call_unknown_function {F : Type} (m : Float64 F) (es : Simple.evaluator F)
    (er : Reflect.evaluator F) (nameS nameR : String) (Fun : Expr)
    (ArgsS ArgsR : List Expr)
    (hs : es.funcs nameS = none)
    (hFun : Reflect.funcName Fun = .ok nameR)
    (hr : er.registry.funcs nameR = none) :
    Simple.eval m es (.CallExpr (.Ident nameS) ArgsS) = .err (.unsupportedFunction nameS) ∧
      Reflect.eval m er (.CallExpr Fun ArgsR) = .err (.unsupportedFunction nameR) := by
  constructor
  · simp [Simple.eval, hs]
  · simp [Reflect.eval, hFun, hr]

/-- Witness of C11: `exp(2)` in the simple evaluator and `log(2)` against the registry
of `main`, which holds `sin`, `cos` and `add`. -/
theorem call_unknown_function_witness :
    Simple.eval Sample.model (Simple.NewEvaluator Sample.model)
        (.CallExpr (.Ident "exp") [Sample.int "2"]) = .err (.unsupportedFunction "exp") ∧
      Reflect.eval Sample.model (Reflect.NewEvaluator (Reflect.mainRegistry Sample.model))
        (.CallExpr (.Ident "log") [Sample.int "2"]) = .err (.unsupportedFunction "log") :=
  call_unknown_function Sample.model (Simple.NewEvaluator Sample.model)
    (Reflect.NewEvaluator (Reflect.mainRegistry Sample.model)) "exp" "log" (.Ident "log")
    [Sample.int "2"] [Sample.int "2"]
    (by simp [Simple.NewEvaluator])
    (by simp [Reflect.funcName])
    (by simp [Reflect.NewEvaluator, Reflect.mainRegistry_funcs])

/-- C12. In both evaluators, for every function table, a bare identifier fails with
the unsupported-identifier error carrying its name, registered as a function or not. -/
theorem ident_unsupported {F : Type} (m : Float64 F) (es : Simple.evaluator F)
    (er : Reflect.evaluator F) (name : String) :
    Simple.eval m es (.Ident name) = .err (.unsupportedIdent name) ∧
      Reflect.eval m er (.Ident name) = .err (.unsupportedIdent name) := by
  simp [Simple.eval, Reflect.eval]

/-- Witness of C12: `sin` is registered in both tables of `main`, and the bare
identifier `sin` fails all the same. -/
theorem ident_unsupported_witness :
    ((Simple.NewEvaluator Sample.model).funcs "sin").isSome = true ∧
      ((Reflect.mainRegistry Sample.model).funcs "sin").isSome = true ∧
      Simple.eval Sample.model (Simple.NewEvaluator Sample.model) (.Ident "sin")
        = .err (.unsupportedIdent "sin") ∧
      Reflect.eval Sample.model (Reflect.NewEvaluator (Reflect.mainRegistry Sample.model))
        (.Ident "sin") = .err (.unsupportedIdent "sin") :=
  ⟨by simp [Simple.NewEvaluator], by simp [Reflect.mainRegistry_funcs],
    ident_unsupported Sample.model (Simple.NewEvaluator Sample.model)
      (Reflect.NewEvaluator (Reflect.mainRegistry Sample.model)) "sin"⟩

/-- C13. In both evaluators, for every function table and every tree `E`, the
parenthesized tree evaluates to what `E` evaluates to: the same value, the same error
or the same panic. -/
theorem paren_transparent {F : Type} (m : Float64 F) (es : Simple.evaluator F)
    (er : Reflect.evaluator F) (E : Expr) :
    Simple.eval m es (.ParenExpr E) = Simple.eval m es E ∧
      Reflect.eval m er (.ParenExpr E) = Reflect.eval m er E := by
  constructor
  · rw [Simple.eval]
  · rw [Reflect.eval]

/-- Witness of C13: `(1 + 2 * 3)` gives 7 in the simple evaluator, `(x)` fails like `x`
in both, and `(sin(1))` gives the value of `sin(1)` in the reflect evaluator. -/
theorem paren_transparent_witness :
    Simple.eval Sample.model (Simple.NewEvaluator Sample.model)
        (.ParenExpr Sample.onePlusTwoTimesThree) = .ok (.rat 7) ∧
      Simple.eval Sample.model (Simple.NewEvaluator Sample.model) (.ParenExpr (.Ident "x"))
        = .err (.unsupportedIdent "x") ∧
      Reflect.eval Sample.model (Reflect.NewEvaluator (Reflect.mainRegistry Sample.model))
        (.ParenExpr (.Ident "x")) = .err (.unsupportedIdent "x") ∧
      Reflect.eval Sample.model (Reflect.NewEvaluator (Reflect.mainRegistry Sample.model))
        (.ParenExpr (Sample.call "sin" [Sample.int "1"])) = .ok (.float64 (.sin (.rat 1))) := by
  refine ⟨?_, ?_, ?_, ?_⟩
  · rw [(paren_transparent Sample.model (Simple.NewEvaluator Sample.model)
      (Reflect.NewEvaluator (Reflect.mainRegistry Sample.model)) _).1]
    simp [Simple.eval, Sample.onePlusTwoTimesThree, Sample.int, Sample.model,
      Sample.ParseFloat_0, Sample.ParseFloat_1, Sample.ParseFloat_2, Sample.ParseFloat_3,
      Sample.ParseFloat_5]
    norm_num
  · rw [(paren_transparent Sample.model (Simple.NewEvaluator Sample.model)
      (Reflect.NewEvaluator (Reflect.mainRegistry Sample.model)) _).1]
    simp [Simple.eval]
  · rw [(paren_transparent Sample.model (Simple.NewEvaluator Sample.model)
      (Reflect.NewEvaluator (Reflect.mainRegistry Sample.model)) _).2]
    simp [Reflect.eval]
  · rw [(paren_transparent Sample.model (Simple.NewEvaluator Sample.model)
      (Reflect.NewEvaluator (Reflect.mainRegistry Sample.model)) _).2]
    simp [Reflect.eval, Reflect.evalArgs, Reflect.funcName, Reflect.NewEvaluator,
      Reflect.mainRegistry_funcs, Reflect.callFunc, Reflect.ReflectValue.Call,
      Reflect.FuncValue.Call, Reflect.ofFloatFunc, Reflect.firstNotAssignable,
      Reflect.Value.goType, Reflect.GoType.AssignableTo, Reflect.Value.isNil, Sample.call,
      Sample.int, Sample.model, Sample.ParseFloat_0, Sample.ParseFloat_1, Sample.ParseFloat_2, Sample.ParseFloat_3,
      Sample.ParseFloat_5]

/-- After a sequence of `Use` calls the chain is the old chain followed by the
registered middlewares in registration order, and the map is untouched. -/
theorem Middleware.foldl_Use {H : Type} (ms : List (Middleware.middleware H))
    (r : Middleware.Router H) :
    (ms.foldl Middleware.Router.Use r).chain = r.chain ++ ms ∧
      (ms.foldl Middleware.Router.Use r).mux = r.mux := by
  induction ms generalizing r with
  | nil => simp
  | cons m ms ih =>
    obtain ⟨h1, h2⟩ := ih (r.Use m)
    rw [List.foldl_cons, h1, h2]
    simp [Middleware.Router.Use]

/-- Wrapping a handler of events in a list of bracket middlewares, first one
outermost, gives the entry parts in order, the handler, and the exit parts in reverse
order. -/
theorem Middleware.foldr_bracket {E : Type} (parts : List (List E × List E))
    (h : List E) :
    (parts.map (fun p => Middleware.bracket p.1 p.2)).foldr (fun m merged => m merged) h =
      (parts.map Prod.fst).flatten ++ h ++ (parts.reverse.map Prod.snd).flatten := by
  induction parts with
  | nil => simp
  | cons p ps ih => simp [ih, Middleware.bracket, List.append_assoc]

/-- C14. For every sequence of middlewares registered by `Use` in that order and every
handler, `Add` stores under the route the handler wrapped in the middlewares with the
first registered one outermost, and the handler itself when the chain is empty; for
middlewares with an entry part and an exit part a request then runs the entry parts in
registration order, the handler, and the exit parts in reverse order. -/
theorem router_add_chain {H E : Type} (ms : List (Middleware.middleware H)) (h : H)
    (route : String) (parts : List (List E × List E)) (events : List E) :
    ((ms.foldl Middleware.Router.Use Middleware.NewRouter).Add route h).mux route
        = some (ms.foldr (fun m merged => m merged) h) ∧
      ((Middleware.NewRouter).Add route h).mux route = some h ∧
      (((parts.map (fun p => Middleware.bracket p.1 p.2)).foldl Middleware.Router.Use
          Middleware.NewRouter).Add route events).mux route
        = some ((parts.map Prod.fst).flatten ++ events ++ (parts.reverse.map Prod.snd).flatten) := by
  have key : ∀ {K : Type} (ks : List (Middleware.middleware K)) (k : K),
      ((ks.foldl Middleware.Router.Use Middleware.NewRouter).Add route k).mux route
        = some (ks.foldr (fun m merged => m merged) k) := by
    intro K ks k
    have hc := (Middleware.foldl_Use ks Middleware.NewRouter).1
    simp only [Middleware.NewRouter, List.nil_append] at hc
    simp [Middleware.Router.Add, Middleware.NewRouter, hc, List.foldl_reverse]
  refine ⟨key ms h, ?_, ?_⟩
  · simpa using key ([] : List (Middleware.middleware H)) h
  · rw [key, Middleware.foldr_bracket]

/-- Witness of C14: the handler that `TestRouter` stores under `/hello` is `logger`
around `timer` around the hello handler; it serves a request with an empty context
with the body `hello`, `timer` and the handler finding the logger that `logger` put
into the context. The chain of the package comment runs logger, timeout, ratelimit,
helloHandler, ratelimit, timeout, logger. -/
theorem router_add_chain_witness :
    Middleware.testRouter.mux "/hello"
        = some (Middleware.logger (Middleware.timer Middleware.helloHandler)) ∧
      Middleware.logger (Middleware.timer Middleware.helloHandler) []
        = .ok { log := ["Begin Request:", "time begin:", "hello", "time elapsed:",
                  "End Request:"],
                body := "hello" } ∧
      ((([Middleware.bracket ["logger"] ["logger"], Middleware.bracket ["timeout"] ["timeout"],
          Middleware.bracket ["ratelimit"] ["ratelimit"]].foldl Middleware.Router.Use
          Middleware.NewRouter).Add "/" ["helloHandler"]).mux "/")
        = some ["logger", "timeout", "ratelimit", "helloHandler", "ratelimit", "timeout",
            "logger"] := by
  refine ⟨?_, ?_, ?_⟩
  · exact (router_add_chain [Middleware.logger, Middleware.timer] Middleware.helloHandler
      "/hello" ([] : List (List Unit × List Unit)) []).1
  · simp [Middleware.logger, Middleware.timer, Middleware.helloHandler, List.lookup]
  · exact (router_add_chain ([] : List (Middleware.middleware Unit)) () "/"
      [(["logger"], ["logger"]), (["timeout"], ["timeout"]), (["ratelimit"], ["ratelimit"])]
      ["helloHandler"]).2.2

/-- Method `GetServices` on a discovery whose lock holds no read lock ends in the fatal
error of `RUnlock`. -/
theorem Etcd.GetServices_no_reader (d : Etcd.Discovery) (h : d.locker.readers = 0) :
    d.GetServices = .fatal "sync: RUnlock of unlocked RWMutex" := by
  simp [Etcd.Discovery.GetServices, Etcd.RWMutex.RLocker, Etcd.RWMutex.RUnlock, h]

/-- C15, at the failing input: on a discovery with one service and a lock that is not
held, the call of `RLocker` leaves the lock as it is, no read lock is taken, and
`GetServices` ends in the fatal error of releasing a read lock that is not held; the
sibling `addService` takes and releases the write lock and returns with the lock not
held. -/
theorem getServices_releases_unheld_lock :
    Etcd.sampleDiscovery.locker.RLocker = { readers := 0, writer := false } ∧
      Etcd.sampleDiscovery.GetServices = .fatal "sync: RUnlock of unlocked RWMutex" ∧
      Etcd.sampleDiscovery.addService "/services/b" "10.0.0.2"
        = .done { services := [("/services/b", "10.0.0.2"), ("/services/a", "10.0.0.1")],
                  locker := { readers := 0, writer := false } } := by
  refine ⟨rfl, Etcd.GetServices_no_reader _ rfl, ?_⟩
  simp [Etcd.Discovery.addService, Etcd.sampleDiscovery, Etcd.RWMutex.Lock,
    Etcd.RWMutex.Unlock]

end GoLibs
